import Mathlib

/-!
# Shallow embedding of the workout data access subsystem

This file models, in Lean, the workout effort-score manager and the workout
route reconstruction pipeline of `react-native-healthkit`:

* `ios/WorkoutProxy.swift` — the native layer: `getWorkoutRoutesInternal`,
  `getRouteLocations`, `serializeLocation`, `getSerializedWorkoutLocations`,
  `getWorkoutEffortScoreInternal`, `setWorkoutEffortScoreInternal`;
* `src/utils/workoutEffort.ts` — the TypeScript wrapper:
  `isValidWorkoutEffortScore`, `getWorkoutEffortScore`,
  `setWorkoutEffortScore`, `isWorkoutEffortSupported`.

JavaScript numbers and Core Location scalars are modelled as rationals (ℚ).
The external health store is modelled explicitly: the effort-score store
state for one workout is the ordered list of related effort samples (store
ordering, newest appended last, matching `relateWorkoutEffortSample`
followed by an unsorted query), and callback-driven queries are modelled by
the list of callback invocations the store performs.
-/

deriving instance DecidableEq for Except

/-! ## Effort scores: native layer (`WorkoutProxy.swift`) -/

/-- Store state for one workout's effort-score samples: the values of the
related samples in store ordering (the order an unsorted
`HKSampleQueryDescriptor` returns them; `relateWorkoutEffortSample`
appends at the end). -/
abbrev EffortStore := List ℚ

/-- The delete loop of `setWorkoutEffortScoreInternal`: every sample in the
query snapshot is passed to `store.delete` under `try?`, so a deletion the
store refuses (sample not created by this app) is swallowed and the sample
stays. `delOk i` tells whether the store lets the i-th sample of the
snapshot be deleted. -/
def deleteEffortSamples (delOk : ℕ → Bool) (st : EffortStore) : EffortStore :=
  (st.enum.filter (fun p => !delOk p.1)).map Prod.snd

/-- `setWorkoutEffortScoreInternal` (WorkoutProxy.swift): guard
`score >= 1.0 && score <= 10.0`, else throw; then delete the existing
related samples (failures swallowed), build a new quantity sample with the
score and relate it to the workout (appending it at the end of store
ordering), and return `true`. Result: `(returned bool, new store state)`. -/
def setWorkoutEffortScoreInternal (delOk : ℕ → Bool) (st : EffortStore) (score : ℚ) :
    Except String (Bool × EffortStore) :=
  if 1 ≤ score ∧ score ≤ 10 then
    Except.ok (true, deleteEffortSamples delOk st ++ [score])
  else
    Except.error
      ("[react-native-healthkit] Workout effort score must be between 1 and 10, got: "
        ++ toString score)

/-- `getWorkoutEffortScoreInternal` (WorkoutProxy.swift): query the related
effort samples with no sort descriptors, take `samples.last`, and return
its value, or `nil` when there is none. -/
def getWorkoutEffortScoreInternal (st : EffortStore) : Option ℚ :=
  st.getLast?.map id

/-! ## Effort scores: TypeScript wrapper (`utils/workoutEffort.ts`) -/

/-- `Number.isInteger` on a JS number modelled as ℚ. -/
def numberIsInteger (q : ℚ) : Bool :=
  q.den == 1

/-- `isValidWorkoutEffortScore` (workoutEffort.ts):
`Number.isInteger(score) && score >= 1 && score <= 10`. -/
def isValidWorkoutEffortScore (score : ℚ) : Bool :=
  numberIsInteger score && decide (1 ≤ score) && decide (score ≤ 10)

/-- `String.prototype.includes`: substring containment. -/
def stringIncludes (s pat : String) : Bool :=
  decide (pat.toList <:+: s.toList)

/-- The message of the validation error thrown by the TS
`setWorkoutEffortScore` before any native call. -/
def invalidScoreMessage (score : ℚ) : String :=
  "Invalid workout effort score: " ++ toString score
    ++ ". Score must be an integer between 1 and 10."

/-- The message of the descriptive capability error the TS
`setWorkoutEffortScore` substitutes for an `unrecognized selector` error. -/
def unsupportedMessage : String :=
  "Workout effort scores are only available on iOS 18.0 and later. Please check the iOS version before using this feature."

/-- `getWorkoutEffortScore` (workoutEffort.ts): await the native call; if it
throws an error whose message includes `unrecognized selector`, resolve
with `null`; any other error is rethrown. `native` is the outcome of the
underlying `workout.getWorkoutEffortScore()` call. -/
def getWorkoutEffortScore (native : Except String (Option ℚ)) :
    Except String (Option ℚ) :=
  match native with
  | Except.ok v => Except.ok v
  | Except.error msg =>
    if stringIncludes msg "unrecognized selector" then Except.ok none
    else Except.error msg

/-- `setWorkoutEffortScore` (workoutEffort.ts): validate with
`isValidWorkoutEffortScore` and throw synchronously (zero native calls) on
failure; otherwise await the native call, mapping an
`unrecognized selector` error to the descriptive capability error and
rethrowing every other error. `native` is the outcome of the underlying
`workout.setWorkoutEffortScore(score)` call; the second component counts
the native calls made. -/
def setWorkoutEffortScore (score : ℚ) (native : Except String Bool) :
    Except String Bool × ℕ :=
  if isValidWorkoutEffortScore score then
    match native with
    | Except.ok b => (Except.ok b, 1)
    | Except.error msg =>
      if stringIncludes msg "unrecognized selector" then
        (Except.error unsupportedMessage, 1)
      else (Except.error msg, 1)
  else
    (Except.error (invalidScoreMessage score), 0)

/-- `isWorkoutEffortSupported` (workoutEffort.ts): the body is
`return true` — it ignores the platform version entirely. -/
def isWorkoutEffortSupported : Bool :=
  true

/-! ## Route reconstruction: native layer (`WorkoutProxy.swift`) -/

/-- A `CLLocation` as consumed by `serializeLocation`; scalars as ℚ. -/
structure CLLocation where
  latitude : ℚ
  longitude : ℚ
  altitude : ℚ
  course : ℚ
  speed : ℚ
  speedAccuracy : ℚ
  horizontalAccuracy : ℚ
  verticalAccuracy : ℚ
  timestamp : ℚ
deriving DecidableEq, Repr

/-- The `WorkoutRouteLocation` DTO built by `serializeLocation`. -/
structure WorkoutRouteLocation where
  altitude : ℚ
  course : ℚ
  date : ℚ
  distance : Option ℚ
  horizontalAccuracy : ℚ
  latitude : ℚ
  longitude : ℚ
  speed : ℚ
  speedAccuracy : ℚ
  verticalAccuracy : ℚ
deriving DecidableEq, Repr

/-- One invocation of the `HKWorkoutRouteQuery` callback:
`(_, locationsOrNil, done, errorOrNil)`. -/
structure RouteCallbackEvent where
  locations : Option (List CLLocation)
  done : Bool
  error : Option String
deriving DecidableEq, Repr

/-- How an asynchronous operation of this subsystem terminates, seen from
the caller: the promise stays pending, resolves, rejects — or the process
traps (a `try!` force-unwrap of a thrown error). -/
inductive Outcome (α : Type) where
  | pending
  | resolved (a : α)
  | rejected (msg : String)
  | trapped (msg : String)
deriving DecidableEq, Repr

/-- The continuation logic inside `getRouteLocations`: process the
callback invocations in order against the accumulator `allLocations`.
An invocation with an error resumes throwing it; a `nil` batch resumes
throwing `Empty response`; otherwise the batch is appended and the
continuation resumes with the accumulated list when `done`. `none` means
the continuation is never resumed (the promise never settles). -/
def routeLocationsBridge : List RouteCallbackEvent → List CLLocation →
    Option (Except String (List CLLocation))
  | [], _ => none
  | e :: rest, acc =>
    match e.error with
    | some err => some (Except.error err)
    | none =>
      match e.locations with
      | none => some (Except.error "Empty response")
      | some batch =>
        if e.done then some (Except.ok (acc ++ batch))
        else routeLocationsBridge rest (acc ++ batch)

/-- `getRouteLocations` (WorkoutProxy.swift): the bridged continuation is
awaited under `try!`, so a thrown error is a runtime trap, not a rejected
promise. `evts` is the sequence of callback invocations the store makes. -/
def getRouteLocations (evts : List RouteCallbackEvent) : Outcome (List CLLocation) :=
  match routeLocationsBridge evts [] with
  | none => Outcome.pending
  | some (Except.ok locs) => Outcome.resolved locs
  | some (Except.error e) => Outcome.trapped e

/-- `serializeLocation` (WorkoutProxy.swift): distance is
`location.distance(from: previousLocation)` when there is a previous
location, `nil` otherwise. `dist` is the platform's canonical
`CLLocation.distance(from:)` primitive, `dist a b` standing for
`a.distance(from: b)`. -/
def serializeLocation (dist : CLLocation → CLLocation → ℚ)
    (location : CLLocation) (previousLocation : Option CLLocation) :
    WorkoutRouteLocation :=
  { altitude := location.altitude
    course := location.course
    date := location.timestamp
    distance := previousLocation.map (fun prev => dist location prev)
    horizontalAccuracy := location.horizontalAccuracy
    latitude := location.latitude
    longitude := location.longitude
    speed := location.speed
    speedAccuracy := location.speedAccuracy
    verticalAccuracy := location.verticalAccuracy }

/-- The per-route serialization loop of `getSerializedWorkoutLocations`:
`routeCLLocations.enumerated().map { (i, loc) in
serializeLocation(location: loc,
previousLocation: i == 0 ? nil : routeCLLocations[i - 1]) }`. -/
def serializeLocations (dist : CLLocation → CLLocation → ℚ)
    (locs : List CLLocation) : List WorkoutRouteLocation :=
  locs.enum.map fun p =>
    serializeLocation dist p.2 (if p.1 = 0 then none else locs.get? (p.1 - 1))

/-- An `HKWorkoutRoute` as this subsystem consumes it: its sync metadata
and the callback invocations its `HKWorkoutRouteQuery` produces. -/
structure RouteData where
  syncIdentifier : Option String
  syncVersion : Option ℚ
  locationEvents : List RouteCallbackEvent
deriving DecidableEq, Repr

/-- A sample returned by the anchored route query: either an
`HKWorkoutRoute` or a sample of some other dynamic type. -/
inductive HKSample where
  | route (r : RouteData)
  | nonRoute
deriving DecidableEq, Repr

/-- The `WorkoutRoute` DTO assembled per route. -/
structure WorkoutRoute where
  locations : List WorkoutRouteLocation
  syncIdentifier : Option String
  syncVersion : Option ℚ
deriving DecidableEq, Repr

/-- The Swift conditional array downcast `samples as? [HKWorkoutRoute]`:
all-or-nothing — it succeeds with the whole list exactly when every
element is an `HKWorkoutRoute`, and fails (`nil`) otherwise. -/
def castToRoutes : List HKSample → Option (List RouteData)
  | [] => some []
  | HKSample.route r :: rest => (castToRoutes rest).map (fun rs => r :: rs)
  | HKSample.nonRoute :: _ => none

/-- `getWorkoutRoutesInternal` (WorkoutProxy.swift): the single-shot
anchored query callback fires once with `(samples?, error?)`. An error is
rethrown; a `nil` sample list throws `Empty response`; otherwise the list
is downcast as a whole, the function returning `nil` (`Except.ok none`)
when the cast fails and the routes otherwise. -/
def getWorkoutRoutesInternal (samples : Option (List HKSample)) (error : Option String) :
    Except String (Option (List RouteData)) :=
  match error with
  | some err => Except.error err
  | none =>
    match samples with
    | none => Except.error "Empty response"
    | some ss => Except.ok (castToRoutes ss)

/-- The per-route loop of `getSerializedWorkoutLocations`: routes are
processed in store order, each one's locations fetched with
`getRouteLocations` (whose errors trap) and serialized. -/
def processRoutes (dist : CLLocation → CLLocation → ℚ) :
    List RouteData → List WorkoutRoute → Outcome (List WorkoutRoute)
  | [], acc => Outcome.resolved acc
  | r :: rest, acc =>
    match getRouteLocations r.locationEvents with
    | Outcome.pending => Outcome.pending
    | Outcome.rejected e => Outcome.rejected e
    | Outcome.trapped e => Outcome.trapped e
    | Outcome.resolved locs =>
      processRoutes dist rest
        (acc ++ [{ locations := serializeLocations dist locs
                   syncIdentifier := r.syncIdentifier
                   syncVersion := r.syncVersion }])

/-- `getSerializedWorkoutLocations` (WorkoutProxy.swift): fetch the routes
(an error rejects the promise of `getWorkoutRoutes`); a `nil` route list —
the failed downcast — throws `Unexpected empty response`; otherwise each
route is serialized in order. -/
def getSerializedWorkoutLocations (dist : CLLocation → CLLocation → ℚ)
    (samples : Option (List HKSample)) (error : Option String) :
    Outcome (List WorkoutRoute) :=
  match getWorkoutRoutesInternal samples error with
  | Except.error e => Outcome.rejected e
  | Except.ok none => Outcome.rejected "Unexpected empty response"
  | Except.ok (some routes) => processRoutes dist routes []

/-! ## Theorems: effort scores -/

/-- C1: if `setWorkoutEffortScoreInternal` resolves successfully (whatever
deletions the store refused along the way), a subsequent
`getWorkoutEffortScoreInternal` returns the score just set: the new sample
is related last, and `get` reads the last related sample, so the
last write wins even across the delete-then-insert-then-relate replacement
with swallowed deletion failures. -/
theorem setThenGet_effortScore (delOk : ℕ → Bool) (st st' : EffortStore)
    (b : Bool) (s : ℚ)
    (h : setWorkoutEffortScoreInternal delOk st s = Except.ok (b, st')) :
    getWorkoutEffortScoreInternal st' = some s := by
  unfold setWorkoutEffortScoreInternal at h
  split at h
  · simp only [Except.ok.injEq, Prod.mk.injEq] at h
    obtain ⟨-, h2⟩ := h
    subst h2
    simp [getWorkoutEffortScoreInternal, List.getLast?_concat]
  · cases h

/-- C1 witness: `set 3` with every deletion refused by the store, then
`set 9` with every deletion refused — the 3-sample survives, yet
`get` returns 9. -/
theorem setThenGet_effortScore_witness :
    setWorkoutEffortScoreInternal (fun _ => false) [] 3 = Except.ok (true, [3]) ∧
    setWorkoutEffortScoreInternal (fun _ => false) [3] 9 = Except.ok (true, [3, 9]) ∧
    getWorkoutEffortScoreInternal [3, 9] = some 9 :=
  ⟨by decide, by decide,
    setThenGet_effortScore (fun _ => false) [3] [3, 9] true 9 (by decide)⟩

/-- C2: the claim says `isWorkoutEffortSupported` returns `false` whenever
the platform version is below 18.0; the code's body is `return true`, so
the function returns `true` unconditionally, on every platform version. -/
theorem isWorkoutEffortSupported_always_true : isWorkoutEffortSupported = true :=
  rfl

/-- C7: `isValidWorkoutEffortScore s` holds exactly when `s` is an integer
in `[1, 10]`, and the TS `setWorkoutEffortScore` produces the synchronous
validation error with zero native calls exactly when the validator
rejects `s`. -/
theorem isValidWorkoutEffortScore_spec (s : ℚ) (native : Except String Bool) :
    (isValidWorkoutEffortScore s = true ↔
      ((∃ n : ℤ, s = (n : ℚ)) ∧ 1 ≤ s ∧ s ≤ 10)) ∧
    (setWorkoutEffortScore s native =
        (Except.error (invalidScoreMessage s), 0) ↔
      isValidWorkoutEffortScore s = false) := by
  constructor
  · unfold isValidWorkoutEffortScore numberIsInteger
    simp only [Bool.and_eq_true, decide_eq_true_eq, beq_iff_eq]
    constructor
    · rintro ⟨⟨h1, h2⟩, h3⟩
      exact ⟨⟨s.num, ((Rat.den_eq_one_iff s).mp h1).symm⟩, h2, h3⟩
    · rintro ⟨⟨n, rfl⟩, h2, h3⟩
      exact ⟨⟨Rat.den_intCast n, h2⟩, h3⟩
  · by_cases h : isValidWorkoutEffortScore s
    · simp only [h, Bool.true_eq_false, iff_false]
      unfold setWorkoutEffortScore
      rw [if_pos h]
      cases native with
      | ok b => simp
      | error msg =>
        by_cases hm : stringIncludes msg "unrecognized selector" <;> simp [hm]
    · simp only [Bool.not_eq_true] at h
      simp [setWorkoutEffortScore, h]

/-- C7 witness: 11 is rejected by the validator and `setWorkoutEffortScore`
rejects it synchronously with zero native calls, while 7 is a valid
score. -/
theorem isValidWorkoutEffortScore_spec_witness :
    ((isValidWorkoutEffortScore 11 = true ↔
        ((∃ n : ℤ, (11 : ℚ) = (n : ℚ)) ∧ 1 ≤ (11 : ℚ) ∧ (11 : ℚ) ≤ 10)) ∧
      (setWorkoutEffortScore 11 (Except.ok true) =
          (Except.error (invalidScoreMessage 11), 0) ↔
        isValidWorkoutEffortScore 11 = false)) ∧
    isValidWorkoutEffortScore 7 = true :=
  ⟨isValidWorkoutEffortScore_spec 11 (Except.ok true), by decide⟩

/-- C9: the single-shot route query callback firing with neither an error
nor a sample list rejects with the protocol-violation `Empty response`
error, while an empty sample list is a valid non-error result (an empty
route list, and a resolved empty serialization). -/
theorem emptyResponse_protocol_violation :
    getWorkoutRoutesInternal none none = Except.error "Empty response" ∧
    getSerializedWorkoutLocations (fun _ _ => 0) none none =
      Outcome.rejected "Empty response" ∧
    getWorkoutRoutesInternal (some []) none = Except.ok (some []) ∧
    getSerializedWorkoutLocations (fun _ _ => 0) (some []) none =
      Outcome.resolved [] :=
  ⟨rfl, rfl, rfl, rfl⟩

/-- C10: the native validation of `setWorkoutEffortScoreInternal` only
checks the closed range `1.0 ≤ score ≤ 10.0`: any score in range — integer
or not — passes the guard and proceeds to the store (delete, insert,
relate), while the integrality requirement lives solely in the TS
`isValidWorkoutEffortScore`. -/
theorem nativeRangeCheck_only (delOk : ℕ → Bool) (st : EffortStore) (s : ℚ)
    (h1 : 1 ≤ s) (h2 : s ≤ 10) :
    setWorkoutEffortScoreInternal delOk st s =
      Except.ok (true, deleteEffortSamples delOk st ++ [s]) ∧
    (numberIsInteger s = false → isValidWorkoutEffortScore s = false) := by
  constructor
  · unfold setWorkoutEffortScoreInternal
    rw [if_pos ⟨h1, h2⟩]
  · intro h
    simp [isValidWorkoutEffortScore, h]

/-- C10 witness: the non-integer 7.5 is accepted by the native range check
and written to the store, yet rejected by the TS validator. -/
theorem nativeRangeCheck_only_witness :
    (setWorkoutEffortScoreInternal (fun _ => true) [] (15 / 2) =
      Except.ok (true, [15 / 2]) ∧
    (numberIsInteger (15 / 2) = false →
      isValidWorkoutEffortScore (15 / 2) = false)) ∧
    numberIsInteger (15 / 2 : ℚ) = false :=
  ⟨nativeRangeCheck_only (fun _ => true) [] (15 / 2) (by norm_num) (by norm_num),
    by norm_num [numberIsInteger]⟩

/-- The validation error message always starts with `I`. -/
lemma invalidScoreMessage_head (s : ℚ) :
    (invalidScoreMessage s).data.head? = some 'I' := by
  have hA : ("Invalid workout effort score: " : String).data =
      'I' :: ("nvalid workout effort score: " : String).data := by decide
  simp [invalidScoreMessage, String.data_append, hA]

/-- The capability error message starts with `W`, so it is distinguishable
from every validation error message. -/
lemma unsupportedMessage_ne_invalidScoreMessage (s : ℚ) :
    unsupportedMessage ≠ invalidScoreMessage s := by
  intro h
  have h2 : unsupportedMessage.data.head? = (invalidScoreMessage s).data.head? := by
    rw [h]
  have h3 : unsupportedMessage.data.head? = some 'W' := by decide
  rw [h3, invalidScoreMessage_head] at h2
  cases h2

/-- C8: on a native `unrecognized selector` error, the TS
`getWorkoutEffortScore` resolves with `null` while `setWorkoutEffortScore`
(on a valid score) rejects with the capability-unavailable message — an
error distinguishable from the invalid-score validation error; every other
native error propagates unchanged through both wrappers. -/
theorem effortScore_capability_mapping (msg : String) (s : ℚ)
    (hs : isValidWorkoutEffortScore s = true) :
    (stringIncludes msg "unrecognized selector" = true →
      getWorkoutEffortScore (Except.error msg) = Except.ok none ∧
      (setWorkoutEffortScore s (Except.error msg)).1 =
        Except.error unsupportedMessage ∧
      unsupportedMessage ≠ invalidScoreMessage s) ∧
    (stringIncludes msg "unrecognized selector" = false →
      getWorkoutEffortScore (Except.error msg) = Except.error msg ∧
      (setWorkoutEffortScore s (Except.error msg)).1 = Except.error msg) := by
  constructor
  · intro hm
    refine ⟨?_, ?_, unsupportedMessage_ne_invalidScoreMessage s⟩
    · simp [getWorkoutEffortScore, hm]
    · simp [setWorkoutEffortScore, hs, hm]
  · intro hm
    constructor
    · simp [getWorkoutEffortScore, hm]
    · simp [setWorkoutEffortScore, hs, hm]

/-- C8 witness: a concrete `unrecognized selector` error is mapped (null
for get, capability error for set), and a concrete other error
(`Authorization denied`) propagates unchanged, at the valid score 5. -/
theorem effortScore_capability_mapping_witness :
    (getWorkoutEffortScore
        (Except.error "unrecognized selector sent to instance") =
      Except.ok none ∧
    (setWorkoutEffortScore 5
        (Except.error "unrecognized selector sent to instance")).1 =
      Except.error unsupportedMessage ∧
    unsupportedMessage ≠ invalidScoreMessage 5) ∧
    (getWorkoutEffortScore (Except.error "Authorization denied") =
      Except.error "Authorization denied" ∧
    (setWorkoutEffortScore 5 (Except.error "Authorization denied")).1 =
      Except.error "Authorization denied") :=
  ⟨(effortScore_capability_mapping "unrecognized selector sent to instance" 5
      (by decide)).1 (by decide),
    (effortScore_capability_mapping "Authorization denied" 5
      (by decide)).2 (by decide)⟩

/-! ## Theorems: route reconstruction -/

/-- Build the store's callback invocations for an error-free incremental
delivery of `batches`, with `done` set only on the last invocation. -/
def mkBatchEvents : List (List CLLocation) → List RouteCallbackEvent
  | [] => []
  | [b] => [⟨some b, true, none⟩]
  | b :: rest => ⟨some b, false, none⟩ :: mkBatchEvents rest

/-- A constant (and hence symmetric) stand-in for the platform distance
primitive, used for concrete evaluations. -/
def dist0 : CLLocation → CLLocation → ℚ :=
  fun _ _ => 0

/-- A concrete location with the given latitude, other fields zero. -/
def mkLoc (lat : ℚ) : CLLocation :=
  ⟨lat, 0, 0, 0, 0, 0, 0, 0, 0⟩

lemma routeLocationsBridge_mkBatchEvents (batches : List (List CLLocation))
    (h : batches ≠ []) (acc : List CLLocation) :
    routeLocationsBridge (mkBatchEvents batches) acc =
      some (Except.ok (acc ++ batches.flatten)) := by
  induction batches generalizing acc with
  | nil => exact absurd rfl h
  | cons b rest ih =>
    cases rest with
    | nil => simp [mkBatchEvents, routeLocationsBridge]
    | cons b' rest' =>
      show routeLocationsBridge
        (⟨some b, false, none⟩ :: mkBatchEvents (b' :: rest')) acc = _
      rw [show routeLocationsBridge
            (⟨some b, false, none⟩ :: mkBatchEvents (b' :: rest')) acc =
          routeLocationsBridge (mkBatchEvents (b' :: rest')) (acc ++ b) from rfl,
        ih (by simp) (acc ++ b)]
      simp [List.append_assoc]

lemma routeLocationsBridge_no_done (batches : List (List CLLocation))
    (acc : List CLLocation) :
    routeLocationsBridge
      (batches.map fun b => ⟨some b, false, none⟩) acc = none := by
  induction batches generalizing acc with
  | nil => rfl
  | cons b rest ih => exact ih (acc ++ b)

/-- C6: an error-free incremental delivery with `done` only on the last
invocation resolves with exactly the concatenation of the delivered
batches, in delivery order; without a `done` invocation the bridged
operation never resolves. -/
theorem routeLocations_accumulate (batches : List (List CLLocation))
    (h : batches ≠ []) :
    getRouteLocations (mkBatchEvents batches) =
      Outcome.resolved batches.flatten ∧
    getRouteLocations (batches.map fun b => ⟨some b, false, none⟩) =
      Outcome.pending := by
  constructor
  · unfold getRouteLocations
    rw [routeLocationsBridge_mkBatchEvents batches h []]
    simp
  · unfold getRouteLocations
    rw [routeLocationsBridge_no_done]

/-- C6 witness: batches of sizes `[3, 2, 0, 4]` with `done` only on the
last yield exactly the 9 locations in delivery order. -/
theorem routeLocations_accumulate_witness :
    getRouteLocations (mkBatchEvents
        [[mkLoc 1, mkLoc 2, mkLoc 3], [mkLoc 4, mkLoc 5], [],
          [mkLoc 6, mkLoc 7, mkLoc 8, mkLoc 9]]) =
      Outcome.resolved
        ([[mkLoc 1, mkLoc 2, mkLoc 3], [mkLoc 4, mkLoc 5], [],
          [mkLoc 6, mkLoc 7, mkLoc 8, mkLoc 9]] :
            List (List CLLocation)).flatten ∧
    ([[mkLoc 1, mkLoc 2, mkLoc 3], [mkLoc 4, mkLoc 5], [],
      [mkLoc 6, mkLoc 7, mkLoc 8, mkLoc 9]] :
        List (List CLLocation)).flatten.length = 9 :=
  ⟨(routeLocations_accumulate
      [[mkLoc 1, mkLoc 2, mkLoc 3], [mkLoc 4, mkLoc 5], [],
        [mkLoc 6, mkLoc 7, mkLoc 8, mkLoc 9]] (by simp)).1,
    by simp⟩

lemma routeLocationsBridge_first_error (pre : List RouteCallbackEvent)
    (hpre : ∀ e ∈ pre, e.error = none ∧ e.done = false ∧
      ∃ b, e.locations = some b)
    (l : Option (List CLLocation)) (d : Bool) (err : String)
    (tail : List RouteCallbackEvent) (acc : List CLLocation) :
    routeLocationsBridge (pre ++ ⟨l, d, some err⟩ :: tail) acc =
      some (Except.error err) := by
  induction pre generalizing acc with
  | nil => rfl
  | cons e pre ih =>
    obtain ⟨he, hd, b, hb⟩ := hpre e (List.mem_cons_self e pre)
    show routeLocationsBridge (e :: (pre ++ ⟨l, d, some err⟩ :: tail)) acc = _
    rw [show routeLocationsBridge (e :: (pre ++ ⟨l, d, some err⟩ :: tail)) acc =
        match e.error with
        | some e' => some (Except.error e')
        | none =>
          match e.locations with
          | none => some (Except.error "Empty response")
          | some batch =>
            if e.done then some (Except.ok (acc ++ batch))
            else routeLocationsBridge (pre ++ ⟨l, d, some err⟩ :: tail)
              (acc ++ batch) from rfl,
      he, hb, hd]
    exact ih (fun x hx => hpre x (List.mem_cons_of_mem e hx)) (acc ++ b)

/-- C3 (amended): a callback invocation carrying an error — at any point,
also after prior successful batches — terminates the bridged operation
immediately with that error, discarding the accumulated batches; but
because `getRouteLocations` force-unwraps its continuation with `try!`,
the failure surfaces as a runtime trap, not as a rejected promise. -/
theorem routeLocations_error_traps (pre : List RouteCallbackEvent)
    (hpre : ∀ e ∈ pre, e.error = none ∧ e.done = false ∧
      ∃ b, e.locations = some b)
    (l : Option (List CLLocation)) (d : Bool) (err : String)
    (tail : List RouteCallbackEvent) :
    getRouteLocations (pre ++ ⟨l, d, some err⟩ :: tail) =
      Outcome.trapped err := by
  unfold getRouteLocations
  rw [routeLocationsBridge_first_error pre hpre l d err tail []]

/-- C3 counterexample to the claim as stated: after one successful batch,
an error invocation makes `getRouteLocations` trap (crash via `try!`)
instead of rejecting the caller's future with the error. -/
theorem routeLocations_error_not_rejected :
    getRouteLocations
        [⟨some [mkLoc 1], false, none⟩, ⟨none, false, some "boom"⟩] =
      Outcome.trapped "boom" ∧
    getRouteLocations
        [⟨some [mkLoc 1], false, none⟩, ⟨none, false, some "boom"⟩] ≠
      Outcome.rejected "boom" := by
  constructor
  · rfl
  · intro h
    cases h

/-- C3 witness: the amended statement at the same concrete input. -/
theorem routeLocations_error_traps_witness :
    getRouteLocations
        [⟨some [mkLoc 2], false, none⟩, ⟨none, true, some "boom"⟩] =
      Outcome.trapped "boom" :=
  routeLocations_error_traps [⟨some [mkLoc 2], false, none⟩]
    (by
      intro e he
      simp only [List.mem_singleton] at he
      subst he
      exact ⟨rfl, rfl, [mkLoc 2], rfl⟩)
    none true "boom" []

lemma castToRoutes_eq_none_of_nonRoute (samples : List HKSample)
    (hmem : HKSample.nonRoute ∈ samples) :
    castToRoutes samples = none := by
  induction samples with
  | nil => cases hmem
  | cons s rest ih =>
    cases s with
    | nonRoute => rfl
    | route r =>
      have hrest : HKSample.nonRoute ∈ rest := by
        cases hmem with
        | tail _ h => exact h
      show (castToRoutes rest).map (fun rs => r :: rs) = none
      rw [ih hrest]
      rfl

/-- C4 (amended): the downcast `samples as? [HKWorkoutRoute]` is
all-or-nothing, not a filter. A workout with zero associated routes (an
empty sample list) resolves with an empty route list, not an error; but as
soon as any returned sample — in particular, all of them — is not a
workout route, the cast fails and `getWorkoutRoutes` rejects with
`Unexpected empty response` instead of dropping the foreign samples. -/
theorem routes_cast_all_or_nothing (dist : CLLocation → CLLocation → ℚ)
    (samples : List HKSample) (hmem : HKSample.nonRoute ∈ samples) :
    getSerializedWorkoutLocations dist (some []) none =
      Outcome.resolved [] ∧
    getSerializedWorkoutLocations dist (some samples) none =
      Outcome.rejected "Unexpected empty response" := by
  refine ⟨rfl, ?_⟩
  have h1 : getWorkoutRoutesInternal (some samples) none =
      Except.ok (castToRoutes samples) := rfl
  rw [castToRoutes_eq_none_of_nonRoute samples hmem] at h1
  unfold getSerializedWorkoutLocations
  rw [h1]

/-- C4 counterexample to the claim as stated: when the store returns only
non-route samples, the operation does not resolve with an empty route
list — it rejects. -/
theorem routes_nonRoute_rejects :
    getSerializedWorkoutLocations dist0 (some [HKSample.nonRoute]) none =
      Outcome.rejected "Unexpected empty response" ∧
    getSerializedWorkoutLocations dist0 (some [HKSample.nonRoute]) none ≠
      Outcome.resolved [] := by
  constructor
  · rfl
  · intro h
    cases h

/-- C4 witness: the amended statement at a concrete foreign sample. -/
theorem routes_cast_all_or_nothing_witness :
    getSerializedWorkoutLocations dist0 (some []) none =
      Outcome.resolved [] ∧
    getSerializedWorkoutLocations dist0
        (some [HKSample.route ⟨none, none, []⟩, HKSample.nonRoute]) none =
      Outcome.rejected "Unexpected empty response" :=
  routes_cast_all_or_nothing dist0
    [HKSample.route ⟨none, none, []⟩, HKSample.nonRoute]
    (List.mem_cons_of_mem _ (List.mem_cons_self _ _))

/-- C5: in every serialized route, the location at index 0 has its
distance unset, and the location at index `i + 1` carries exactly the
platform distance between it and the immediately preceding location in
delivery order (the distance primitive being symmetric, as the platform's
geodesic distance is). -/
theorem routeDistance_invariant (dist : CLLocation → CLLocation → ℚ)
    (hsymm : ∀ a b, dist a b = dist b a) (locs : List CLLocation) (i : ℕ)
    (prev cur : CLLocation) (l0 li : WorkoutRouteLocation)
    (h0 : (serializeLocations dist locs).get? 0 = some l0)
    (hp : locs.get? i = some prev) (hc : locs.get? (i + 1) = some cur)
    (hi : (serializeLocations dist locs).get? (i + 1) = some li) :
    l0.distance = none ∧ li.distance = some (dist prev cur) := by
  constructor
  · rw [serializeLocations, List.get?_map, List.get?_enum] at h0
    cases hl : locs.get? 0 with
    | none => rw [hl] at h0; cases h0
    | some a =>
      rw [hl] at h0
      simp only [Option.map_some'] at h0
      cases h0
      rfl
  · rw [serializeLocations, List.get?_map, List.get?_enum, hc] at hi
    simp only [Option.map_some'] at hi
    cases hi
    have hp' : locs[i]? = some prev := by simpa using hp
    simp [serializeLocation, hp', Nat.add_sub_cancel, hsymm prev cur]

/-- C5 witness: a two-location route under the constant distance
primitive — the first serialized location has no distance, the second the
distance to its predecessor. -/
theorem routeDistance_invariant_witness :
    (serializeLocation dist0 (mkLoc 3) none).distance = none ∧
    (serializeLocation dist0 (mkLoc 4) (some (mkLoc 3))).distance =
      some (dist0 (mkLoc 3) (mkLoc 4)) :=
  routeDistance_invariant dist0 (fun _ _ => rfl) [mkLoc 3, mkLoc 4] 0
    (mkLoc 3) (mkLoc 4) (serializeLocation dist0 (mkLoc 3) none)
    (serializeLocation dist0 (mkLoc 4) (some (mkLoc 3)))
    rfl rfl rfl rfl
